import Mathlib

/-!
Verification development for the block/batch storage-model conversions of the
zkSync-era sequencer core (`core/lib/dal/src/models/storage_block.rs`).

Shallow embedding conventions:
  * Postgres `i64` / `i32` columns are modelled as `Int`; Rust unsigned targets
    (`u16`, `u32`, `u64`, `usize`) are modelled as `Nat`, with Rust `as` casts
    made explicit as reduction modulo `2 ^ width` (Rust `as`-casts to an
    unsigned type keep the low bits of the two's-complement representation,
    which is exactly `Int.emod` by `2 ^ width`).
  * Byte strings (`Vec<u8>`, `H256`, `H160`, `H2048`) are `List Nat`; the
    panicking `from_slice` constructors become `Option`-valued functions that
    return `none` exactly when the Rust code would panic on a wrong length.
  * Fallible paths are explicit: a Rust function that can panic is embedded as
    an `Option`-valued function (`none` = panic); `TryInto` is embedded as
    `Option (Except e a)` so that a panic (`none`), an error
    (`some (.error e)`), and success (`some (.ok m)`) stay distinct, in the
    evaluation order of the Rust source.
-/

set_option maxRecDepth 100000

namespace ZkSync

abbrev Bytes := List Nat

/-- Embeds `H256::from_slice` (external `primitive-types` crate): panics unless the
slice has exactly 32 bytes; we keep the bytes themselves as the value. -/
def H256.fromSlice (bytes : Bytes) : Option Bytes :=
  if bytes.length = 32 then some bytes else none

/-- Embeds `Address::from_slice` (H160): panics unless the slice has exactly 20 bytes. -/
def Address.fromSlice (bytes : Bytes) : Option Bytes :=
  if bytes.length = 20 then some bytes else none

/-- Embeds `H2048::from_slice` (the logs bloom): panics unless exactly 256 bytes. -/
def H2048.fromSlice (bytes : Bytes) : Option Bytes :=
  if bytes.length = 256 then some bytes else none

/-- Decode one hexadecimal digit, as `rustc-hex` does. -/
def hexDigitVal (c : Char) : Option Nat :=
  if ('0' ≤ c ∧ c ≤ '9') then some (c.toNat - '0'.toNat)
  else if ('a' ≤ c ∧ c ≤ 'f') then some (c.toNat - 'a'.toNat + 10)
  else if ('A' ≤ c ∧ c ≤ 'F') then some (c.toNat - 'A'.toNat + 10)
  else none

/-- Decode a hex character string into bytes, two digits per byte;
fails on a non-hex character or an odd number of digits. -/
def hexDecode : List Char → Option Bytes
  | [] => some []
  | [_] => none
  | c1 :: c2 :: rest =>
    match hexDigitVal c1, hexDigitVal c2, hexDecode rest with
    | some hi, some lo, some tail => some ((16 * hi + lo) :: tail)
    | _, _, _ => none

/-- Embeds `H256::from_str` (external `primitive-types`/`rustc-hex`): parses exactly
64 hex digits into 32 bytes, `none` on malformed input (the call sites wrap it
in `.expect(..)`, i.e. a panic). -/
def H256.fromStr (s : String) : Option Bytes :=
  match hexDecode s.data with
  | some bytes => if bytes.length = 32 then some bytes else none
  | none => none

/-- Rust `i64 as u32` (used for sequence numbers): low 32 bits. -/
def u32ofI64 (n : Int) : Nat := (n % (4294967296 : Int)).toNat

/-- Rust `i64 as u64` (timestamps, gas prices): low 64 bits. -/
def u64ofI64 (n : Int) : Nat := (n % (18446744073709551616 : Int)).toNat

/-- Rust `i32 as u16` (transaction counts): low 16 bits. -/
def u16ofI32 (n : Int) : Nat := (n % (65536 : Int)).toNat

/-- Rust `i32 as usize` on a 64-bit target (detail conversions): sign-extend
to 64 bits and reinterpret, i.e. the value modulo `2 ^ 64`. -/
def usizeOfI32 (n : Int) : Nat := (n % (18446744073709551616 : Int)).toNat

/-- Rust `u64 as i64` (binding an exact block number): reinterpret the bit
pattern as a signed 64-bit value. -/
def i64ofU64 (n : Nat) : Int :=
  if n < 9223372036854775808 then (n : Int) else (n : Int) - 18446744073709551616

/-- Embeds `BigDecimal::to_u64` (external `bigdecimal` crate) on the integral
decimals stored for `base_fee_per_gas`: `None` when negative or out of the
`u64` range.  The column stores integers, so the value is modelled as `Int`. -/
def bigDecimalToU64 (x : Int) : Option Nat :=
  if 0 ≤ x ∧ x < 18446744073709551616 then some x.toNat else none

/-- Modelled from the spec: `L2ToL1Log` and its `from_slice` live in
`zksync_types` (not under `src/`).  Per the spec, array-typed fields are
decoded element-wise and a malformed element (wrong byte width for a log
entry) is a fatal decode error; the entry width is a fixed constant. -/
structure L2ToL1Log where
  bytes : Bytes
deriving DecidableEq, Repr

def L2ToL1Log.SERIALIZED_SIZE : Nat := 88

def L2ToL1Log.fromSlice (data : Bytes) : Option L2ToL1Log :=
  if data.length = L2ToL1Log.SERIALIZED_SIZE then some ⟨data⟩ else none

/-- Modelled from the spec: `PriorityOpOnchainData` and its `From<Vec<u8>>`
(`raw_data.into()`) live in `zksync_types` (not under `src/`).  Per the spec,
array-typed fields — priority-ops data named alongside the L2→L1 logs — are
decoded element-wise and a malformed element (wrong byte width) is a fatal
decode error, never coerced; the serialized element width is a fixed
constant. -/
structure PriorityOpOnchainData where
  bytes : Bytes
deriving DecidableEq, Repr

def PriorityOpOnchainData.SERIALIZED_SIZE : Nat := 64

def PriorityOpOnchainData.fromBytes (raw_data : Bytes) : Option PriorityOpOnchainData :=
  if raw_data.length = PriorityOpOnchainData.SERIALIZED_SIZE then some ⟨raw_data⟩ else none

/-- Embeds `zksync_contracts::BaseSystemContractsHashes`. -/
structure BaseSystemContractsHashes where
  bootloader : Bytes
  default_aa : Bytes
deriving DecidableEq, Repr

/-- Embeds `zksync_types::explorer_api::BlockStatus`. -/
inductive BlockStatus where
  | Sealed
  | Verified
deriving DecidableEq, Repr

/-- Embeds `StorageL1BatchConvertError` (the only variant is `Incomplete`). -/
inductive StorageL1BatchConvertError where
  | Incomplete
deriving DecidableEq, Repr

/-- Embeds `StorageL1Batch`: the raw batch row.  `serde_json::Value` columns are
modelled as the `Option` of their decoded shape (`none` = a value on which
`serde_json::from_value` fails, which the code turns into a panic). -/
structure StorageL1Batch where
  number : Int
  timestamp : Int
  is_finished : Bool
  l1_tx_count : Int
  l2_tx_count : Int
  fee_account_address : Bytes
  bloom : Bytes
  l2_to_l1_logs : List Bytes
  priority_ops_onchain_data : List Bytes
  created_at : Int
  updated_at : Int
  parent_hash : Option Bytes
  hash : Option Bytes
  merkle_root_hash : Option Bytes
  commitment : Option Bytes
  meta_parameters_hash : Option Bytes
  pass_through_data_hash : Option Bytes
  aux_data_hash : Option Bytes
  rollup_last_leaf_index : Option Int
  zkporter_is_available : Option Bool
  bootloader_code_hash : Option Bytes
  default_aa_code_hash : Option Bytes
  l2_to_l1_messages : List Bytes
  l2_l1_compressed_messages : Option Bytes
  l2_l1_merkle_root : Option Bytes
  compressed_initial_writes : Option Bytes
  compressed_repeated_writes : Option Bytes
  compressed_write_logs : Option Bytes
  compressed_contracts : Option Bytes
  eth_prove_tx_id : Option Int
  eth_commit_tx_id : Option Int
  eth_execute_tx_id : Option Int
  predicted_commit_gas_cost : Int
  predicted_prove_gas_cost : Int
  predicted_execute_gas_cost : Int
  initial_bootloader_heap_content : Option (List (Nat × Nat))
  used_contract_hashes : Option (List Nat)
  base_fee_per_gas : Int
  l1_gas_price : Int
  l2_fair_gas_price : Int
  gas_per_pubdata_byte_in_block : Option Int
  gas_per_pubdata_limit : Int
  skip_proof : Bool
deriving DecidableEq, Repr

/-- Embeds `zksync_types::block::L1BatchHeader` (the fields this file populates). -/
structure L1BatchHeader where
  number : Nat
  is_finished : Bool
  timestamp : Nat
  fee_account_address : Bytes
  priority_ops_onchain_data : List PriorityOpOnchainData
  l1_tx_count : Nat
  l2_tx_count : Nat
  l2_to_l1_logs : List L2ToL1Log
  l2_to_l1_messages : List Bytes
  bloom : Bytes
  initial_bootloader_contents : List (Nat × Nat)
  used_contract_hashes : List Nat
  base_fee_per_gas : Nat
  base_system_contracts_hashes : BaseSystemContractsHashes
  l1_gas_price : Nat
  l2_fair_gas_price : Nat
deriving DecidableEq, Repr

/-- Embeds `zksync_types::commitment::L1BatchMetaParameters`. -/
structure L1BatchMetaParameters where
  zkporter_is_available : Bool
  bootloader_code_hash : Bytes
  default_aa_code_hash : Bytes
deriving DecidableEq, Repr

/-- Embeds `zksync_types::commitment::L1BatchMetadata`. -/
structure L1BatchMetadata where
  root_hash : Bytes
  rollup_last_leaf_index : Nat
  merkle_root_hash : Bytes
  initial_writes_compressed : Bytes
  repeated_writes_compressed : Bytes
  l2_l1_messages_compressed : Bytes
  l2_l1_merkle_root : Bytes
  aux_data_hash : Bytes
  meta_parameters_hash : Bytes
  pass_through_data_hash : Bytes
  commitment : Bytes
  block_meta_params : L1BatchMetaParameters
deriving DecidableEq, Repr

/-- Element-wise decoding of the stored `l2_to_l1_logs`
(`.map(|raw_log| L2ToL1Log::from_slice(&raw_log))`): the first malformed
element panics, i.e. yields `none`. -/
def decodeL2ToL1Logs : List Bytes → Option (List L2ToL1Log)
  | [] => some []
  | raw :: rest =>
    match L2ToL1Log.fromSlice raw, decodeL2ToL1Logs rest with
    | some log, some logs => some (log :: logs)
    | _, _ => none

/-- Element-wise decoding of the stored `priority_ops_onchain_data`
(`.map(|raw_data| raw_data.into())`): the first malformed element is a fatal
decode error, i.e. yields `none`. -/
def decodePriorityOps : List Bytes → Option (List PriorityOpOnchainData)
  | [] => some []
  | raw :: rest =>
    match PriorityOpOnchainData.fromBytes raw, decodePriorityOps rest with
    | some op, some ops => some (op :: ops)
    | _, _ => none

/-- Embeds `impl From<StorageL1Batch> for L1BatchHeader`, with each `expect`/
`from_slice` panic and fatal element decode made explicit as `none`, in the
source's evaluation order: the `priority_ops_onchain_data` decode and then
the `l2_to_l1_logs` decode happen in `let`s before the struct literal, then
the struct fields are evaluated top to bottom. -/
def fromStorageL1BatchHeader (l1_batch : StorageL1Batch) : Option L1BatchHeader :=
  match decodePriorityOps l1_batch.priority_ops_onchain_data with
  | none => none
  | some priority_ops =>
  match decodeL2ToL1Logs l1_batch.l2_to_l1_logs with
  | none => none
  | some l2_to_l1_logs =>
  match Address.fromSlice l1_batch.fee_account_address with
  | none => none
  | some fee_account_address =>
  match H2048.fromSlice l1_batch.bloom with
  | none => none
  | some bloom =>
  match l1_batch.initial_bootloader_heap_content with
  | none => none
  | some initial_bootloader_contents =>
  match l1_batch.used_contract_hashes with
  | none => none
  | some used_contract_hashes =>
  match bigDecimalToU64 l1_batch.base_fee_per_gas with
  | none => none
  | some base_fee_per_gas =>
  match l1_batch.bootloader_code_hash with
  | none => none
  | some bc =>
  match H256.fromSlice bc with
  | none => none
  | some bootloader =>
  match l1_batch.default_aa_code_hash with
  | none => none
  | some dc =>
  match H256.fromSlice dc with
  | none => none
  | some default_aa =>
  some {
    number := u32ofI64 l1_batch.number
    is_finished := l1_batch.is_finished
    timestamp := u64ofI64 l1_batch.timestamp
    fee_account_address := fee_account_address
    priority_ops_onchain_data := priority_ops
    l1_tx_count := u16ofI32 l1_batch.l1_tx_count
    l2_tx_count := u16ofI32 l1_batch.l2_tx_count
    l2_to_l1_logs := l2_to_l1_logs
    l2_to_l1_messages := l1_batch.l2_to_l1_messages
    bloom := bloom
    initial_bootloader_contents := initial_bootloader_contents
    used_contract_hashes := used_contract_hashes
    base_fee_per_gas := base_fee_per_gas
    base_system_contracts_hashes := { bootloader := bootloader, default_aa := default_aa }
    l1_gas_price := u64ofI64 l1_batch.l1_gas_price
    l2_fair_gas_price := u64ofI64 l1_batch.l2_fair_gas_price }

/-- Embeds `impl TryInto<L1BatchMetadata> for StorageL1Batch`.  Result:
`some (.ok m)` = `Ok(m)`, `some (.error .Incomplete)` = `Err(Incomplete)`,
`none` = a `from_slice` panic.  Fields are evaluated in the source's struct
literal order, each `ok_or(Incomplete)?` short-circuiting before the
`from_slice` of the same field runs. -/
def tryIntoL1BatchMetadata (self : StorageL1Batch) :
    Option (Except StorageL1BatchConvertError L1BatchMetadata) :=
  match self.hash with
  | none => some (Except.error StorageL1BatchConvertError.Incomplete)
  | some hash =>
  match H256.fromSlice hash with
  | none => none
  | some root_hash =>
  match self.rollup_last_leaf_index with
  | none => some (Except.error StorageL1BatchConvertError.Incomplete)
  | some rollup_last_leaf_index =>
  match self.merkle_root_hash with
  | none => some (Except.error StorageL1BatchConvertError.Incomplete)
  | some mrh =>
  match H256.fromSlice mrh with
  | none => none
  | some merkle_root_hash =>
  match self.compressed_initial_writes with
  | none => some (Except.error StorageL1BatchConvertError.Incomplete)
  | some initial_writes_compressed =>
  match self.compressed_repeated_writes with
  | none => some (Except.error StorageL1BatchConvertError.Incomplete)
  | some repeated_writes_compressed =>
  match self.l2_l1_compressed_messages with
  | none => some (Except.error StorageL1BatchConvertError.Incomplete)
  | some l2_l1_messages_compressed =>
  match self.l2_l1_merkle_root with
  | none => some (Except.error StorageL1BatchConvertError.Incomplete)
  | some lmr =>
  match H256.fromSlice lmr with
  | none => none
  | some l2_l1_merkle_root =>
  match self.aux_data_hash with
  | none => some (Except.error StorageL1BatchConvertError.Incomplete)
  | some adh =>
  match H256.fromSlice adh with
  | none => none
  | some aux_data_hash =>
  match self.meta_parameters_hash with
  | none => some (Except.error StorageL1BatchConvertError.Incomplete)
  | some mph =>
  match H256.fromSlice mph with
  | none => none
  | some meta_parameters_hash =>
  match self.pass_through_data_hash with
  | none => some (Except.error StorageL1BatchConvertError.Incomplete)
  | some ptd =>
  match H256.fromSlice ptd with
  | none => none
  | some pass_through_data_hash =>
  match self.commitment with
  | none => some (Except.error StorageL1BatchConvertError.Incomplete)
  | some cm =>
  match H256.fromSlice cm with
  | none => none
  | some commitment =>
  match self.zkporter_is_available with
  | none => some (Except.error StorageL1BatchConvertError.Incomplete)
  | some zkporter_is_available =>
  match self.bootloader_code_hash with
  | none => some (Except.error StorageL1BatchConvertError.Incomplete)
  | some bch =>
  match H256.fromSlice bch with
  | none => none
  | some bootloader_code_hash =>
  match self.default_aa_code_hash with
  | none => some (Except.error StorageL1BatchConvertError.Incomplete)
  | some dah =>
  match H256.fromSlice dah with
  | none => none
  | some default_aa_code_hash =>
  some (Except.ok {
    root_hash := root_hash
    rollup_last_leaf_index := u64ofI64 rollup_last_leaf_index
    merkle_root_hash := merkle_root_hash
    initial_writes_compressed := initial_writes_compressed
    repeated_writes_compressed := repeated_writes_compressed
    l2_l1_messages_compressed := l2_l1_messages_compressed
    l2_l1_merkle_root := l2_l1_merkle_root
    aux_data_hash := aux_data_hash
    meta_parameters_hash := meta_parameters_hash
    pass_through_data_hash := pass_through_data_hash
    commitment := commitment
    block_meta_params := {
      zkporter_is_available := zkporter_is_available
      bootloader_code_hash := bootloader_code_hash
      default_aa_code_hash := default_aa_code_hash } })

/-- Embeds `StorageMiniblockHeader`: the raw miniblock row. -/
structure StorageMiniblockHeader where
  number : Int
  timestamp : Int
  hash : Bytes
  l1_tx_count : Int
  l2_tx_count : Int
  base_fee_per_gas : Int
  l1_gas_price : Int
  l2_fair_gas_price : Int
  bootloader_code_hash : Option Bytes
  default_aa_code_hash : Option Bytes
deriving DecidableEq, Repr

/-- Embeds `zksync_types::block::MiniblockHeader`. -/
structure MiniblockHeader where
  number : Nat
  timestamp : Nat
  hash : Bytes
  l1_tx_count : Nat
  l2_tx_count : Nat
  base_fee_per_gas : Nat
  l1_gas_price : Nat
  l2_fair_gas_price : Nat
  base_system_contracts_hashes : BaseSystemContractsHashes
deriving DecidableEq, Repr

/-- Embeds `impl From<StorageMiniblockHeader> for MiniblockHeader`, panics explicit
(`H256::from_slice` on the hash, `to_u64().unwrap()` on the base fee, the two
`expect("should not be none")` on the system-contract hashes), in the struct
literal's evaluation order. -/
def fromStorageMiniblockHeader (row : StorageMiniblockHeader) : Option MiniblockHeader :=
  match H256.fromSlice row.hash with
  | none => none
  | some hash =>
  match bigDecimalToU64 row.base_fee_per_gas with
  | none => none
  | some base_fee_per_gas =>
  match row.bootloader_code_hash with
  | none => none
  | some bc =>
  match H256.fromSlice bc with
  | none => none
  | some bootloader =>
  match row.default_aa_code_hash with
  | none => none
  | some dc =>
  match H256.fromSlice dc with
  | none => none
  | some default_aa =>
  some {
    number := u32ofI64 row.number
    timestamp := u64ofI64 row.timestamp
    hash := hash
    l1_tx_count := u16ofI32 row.l1_tx_count
    l2_tx_count := u16ofI32 row.l2_tx_count
    base_fee_per_gas := base_fee_per_gas
    l1_gas_price := u64ofI64 row.l1_gas_price
    l2_fair_gas_price := u64ofI64 row.l2_fair_gas_price
    base_system_contracts_hashes := { bootloader := bootloader, default_aa := default_aa } }

/-- Embeds `StorageBlockDetails`: the raw detail row for a miniblock. -/
structure StorageBlockDetails where
  number : Int
  l1_batch_number : Int
  timestamp : Int
  l1_tx_count : Int
  l2_tx_count : Int
  root_hash : Option Bytes
  commit_tx_hash : Option String
  committed_at : Option Int
  prove_tx_hash : Option String
  proven_at : Option Int
  execute_tx_hash : Option String
  executed_at : Option Int
  l1_gas_price : Int
  l2_fair_gas_price : Int
  bootloader_code_hash : Option Bytes
  default_aa_code_hash : Option Bytes
  fee_account_address : Option Bytes
deriving DecidableEq, Repr

/-- Embeds `zksync_types::explorer_api::BlockDetails`.  `NaiveDateTime` timestamps
are opaque `Int`s; `DateTime::<Utc>::from_utc` is the identity on them. -/
structure BlockDetails where
  number : Nat
  l1_batch_number : Nat
  timestamp : Nat
  l1_tx_count : Nat
  l2_tx_count : Nat
  status : BlockStatus
  root_hash : Option Bytes
  commit_tx_hash : Option Bytes
  committed_at : Option Int
  prove_tx_hash : Option Bytes
  proven_at : Option Int
  execute_tx_hash : Option Bytes
  executed_at : Option Int
  l1_gas_price : Nat
  l2_fair_gas_price : Nat
  base_system_contracts_hashes : BaseSystemContractsHashes
  operator_address : Bytes
deriving DecidableEq, Repr

/-- Rust's `option.map(f)` where `f` can panic: the outer `none` is the
panic, the inner `Option` is the mapped field (`some none` = field absent,
no panic; `some (some b)` = field present and decoded). -/
def optionMapOrPanic (f : α → Option β) : Option α → Option (Option β)
  | none => some none
  | some a => (f a).map some

/-- Embeds `StorageBlockDetails::into_block_details`: the status is computed first,
then the struct fields in order, with every `expect` panic (bad `root_hash`
width, malformed tx-hash hex, missing system-contract hash, bad
`fee_account_address` width) explicit as `none`;
`.map(Address::from_slice).unwrap_or(current_operator_address)` becomes
`getD current_operator_address` on the decoded field. -/
def intoBlockDetails (self : StorageBlockDetails) (current_operator_address : Bytes) :
    Option BlockDetails :=
  let status :=
    if self.number == 0 || self.execute_tx_hash.isSome then BlockStatus.Verified
    else BlockStatus.Sealed
  match optionMapOrPanic H256.fromSlice self.root_hash with
  | none => none
  | some root_hash =>
  match optionMapOrPanic H256.fromStr self.commit_tx_hash with
  | none => none
  | some commit_tx_hash =>
  match optionMapOrPanic H256.fromStr self.prove_tx_hash with
  | none => none
  | some prove_tx_hash =>
  match optionMapOrPanic H256.fromStr self.execute_tx_hash with
  | none => none
  | some execute_tx_hash =>
  match self.bootloader_code_hash with
  | none => none
  | some bc =>
  match H256.fromSlice bc with
  | none => none
  | some bootloader =>
  match self.default_aa_code_hash with
  | none => none
  | some dc =>
  match H256.fromSlice dc with
  | none => none
  | some default_aa =>
  match optionMapOrPanic Address.fromSlice self.fee_account_address with
  | none => none
  | some fee_account_address =>
  some {
    number := u32ofI64 self.number
    l1_batch_number := u32ofI64 self.l1_batch_number
    timestamp := u64ofI64 self.timestamp
    l1_tx_count := usizeOfI32 self.l1_tx_count
    l2_tx_count := usizeOfI32 self.l2_tx_count
    status := status
    root_hash := root_hash
    commit_tx_hash := commit_tx_hash
    committed_at := self.committed_at
    prove_tx_hash := prove_tx_hash
    proven_at := self.proven_at
    execute_tx_hash := execute_tx_hash
    executed_at := self.executed_at
    l1_gas_price := u64ofI64 self.l1_gas_price
    l2_fair_gas_price := u64ofI64 self.l2_fair_gas_price
    base_system_contracts_hashes := { bootloader := bootloader, default_aa := default_aa }
    operator_address := fee_account_address.getD current_operator_address }

/-- Embeds `StorageL1BatchDetails`: the raw detail row for an L1 batch. -/
structure StorageL1BatchDetails where
  number : Int
  timestamp : Int
  l1_tx_count : Int
  l2_tx_count : Int
  root_hash : Option Bytes
  commit_tx_hash : Option String
  committed_at : Option Int
  prove_tx_hash : Option String
  proven_at : Option Int
  execute_tx_hash : Option String
  executed_at : Option Int
  l1_gas_price : Int
  l2_fair_gas_price : Int
  bootloader_code_hash : Option Bytes
  default_aa_code_hash : Option Bytes
deriving DecidableEq, Repr

/-- Embeds `zksync_types::explorer_api::L1BatchDetails`. -/
structure L1BatchDetails where
  number : Nat
  timestamp : Nat
  l1_tx_count : Nat
  l2_tx_count : Nat
  status : BlockStatus
  root_hash : Option Bytes
  commit_tx_hash : Option Bytes
  committed_at : Option Int
  prove_tx_hash : Option Bytes
  proven_at : Option Int
  execute_tx_hash : Option Bytes
  executed_at : Option Int
  l1_gas_price : Nat
  l2_fair_gas_price : Nat
  base_system_contracts_hashes : BaseSystemContractsHashes
deriving DecidableEq, Repr

/-- Embeds `impl From<StorageL1BatchDetails> for L1BatchDetails`, same panic
conventions as `intoBlockDetails`. -/
def l1BatchDetailsFromStorage (storage_l1_batch_details : StorageL1BatchDetails) :
    Option L1BatchDetails :=
  let status :=
    if storage_l1_batch_details.number == 0 ||
        storage_l1_batch_details.execute_tx_hash.isSome then BlockStatus.Verified
    else BlockStatus.Sealed
  match optionMapOrPanic H256.fromSlice storage_l1_batch_details.root_hash with
  | none => none
  | some root_hash =>
  match optionMapOrPanic H256.fromStr storage_l1_batch_details.commit_tx_hash with
  | none => none
  | some commit_tx_hash =>
  match optionMapOrPanic H256.fromStr storage_l1_batch_details.prove_tx_hash with
  | none => none
  | some prove_tx_hash =>
  match optionMapOrPanic H256.fromStr storage_l1_batch_details.execute_tx_hash with
  | none => none
  | some execute_tx_hash =>
  match storage_l1_batch_details.bootloader_code_hash with
  | none => none
  | some bc =>
  match H256.fromSlice bc with
  | none => none
  | some bootloader =>
  match storage_l1_batch_details.default_aa_code_hash with
  | none => none
  | some dc =>
  match H256.fromSlice dc with
  | none => none
  | some default_aa =>
  some {
    number := u32ofI64 storage_l1_batch_details.number
    timestamp := u64ofI64 storage_l1_batch_details.timestamp
    l1_tx_count := usizeOfI32 storage_l1_batch_details.l1_tx_count
    l2_tx_count := usizeOfI32 storage_l1_batch_details.l2_tx_count
    status := status
    root_hash := root_hash
    commit_tx_hash := commit_tx_hash
    committed_at := storage_l1_batch_details.committed_at
    prove_tx_hash := prove_tx_hash
    proven_at := storage_l1_batch_details.proven_at
    execute_tx_hash := execute_tx_hash
    executed_at := storage_l1_batch_details.executed_at
    l1_gas_price := u64ofI64 storage_l1_batch_details.l1_gas_price
    l2_fair_gas_price := u64ofI64 storage_l1_batch_details.l2_fair_gas_price
    base_system_contracts_hashes := { bootloader := bootloader, default_aa := default_aa } }

/-- Embeds `ResolvedL1BatchForMiniblock`: information about the L1 batch a certain
miniblock belongs to. -/
structure ResolvedL1BatchForMiniblock where
  miniblock_l1_batch : Option Nat
  pending_l1_batch : Nat
deriving DecidableEq, Repr

/-- Embeds `ResolvedL1BatchForMiniblock::expected_l1_batch`:
`self.miniblock_l1_batch.unwrap_or(self.pending_l1_batch)`. -/
def ResolvedL1BatchForMiniblock.expected_l1_batch (self : ResolvedL1BatchForMiniblock) : Nat :=
  self.miniblock_l1_batch.getD self.pending_l1_batch

/-- Embeds `zksync_types::api::BlockNumber`. -/
inductive BlockNumber where
  | Committed
  | Finalized
  | Latest
  | Earliest
  | Pending
  | Number (n : Nat)
deriving DecidableEq, Repr

/-- Embeds `zksync_types::api::BlockId`: a hash (32 bytes) or a block number tag. -/
inductive BlockId where
  | Hash (h : Bytes)
  | Number (n : BlockNumber)
deriving DecidableEq, Repr

/-- Embeds `web3_block_number_to_sql`: the literal SQL expression emitted for each
reference tag (`u8`/`U64` render as decimal via `Nat.repr`, matching Rust's
`Display`). -/
def web3_block_number_to_sql (block_number : BlockNumber) : String :=
  match block_number with
  | BlockNumber.Number number => Nat.repr number
  | BlockNumber.Earliest => Nat.repr 0
  | BlockNumber.Pending => "(SELECT (MAX(number) + 1) as number FROM miniblocks)"
  | BlockNumber.Latest | BlockNumber.Committed => "(SELECT MAX(number) as number FROM miniblocks)"
  | BlockNumber.Finalized => "\n                (SELECT COALESCE(\n                    (\n                        SELECT MAX(number) FROM miniblocks\n                        WHERE l1_batch_number = (\n                            SELECT MAX(number) FROM l1_batches\n                            JOIN eth_txs ON\n                                l1_batches.eth_execute_tx_id = eth_txs.id\n                            WHERE\n                                eth_txs.confirmed_eth_tx_history_id IS NOT NULL\n                        )\n                    ),\n                    0\n                ) as number)\n            "

/-- Embeds `web3_block_where_sql`: the lookup predicate for a block id; hash and
exact-number ids use the positional parameter slot, symbolic tags inline the
sub-expression from `web3_block_number_to_sql`. -/
def web3_block_where_sql (block_id : BlockId) (arg_index : Nat) : String :=
  match block_id with
  | BlockId.Hash _ => "miniblocks.hash = $" ++ Nat.repr arg_index
  | BlockId.Number (BlockNumber.Number _) => "miniblocks.number = $" ++ Nat.repr arg_index
  | BlockId.Number number => "miniblocks.number = " ++ web3_block_number_to_sql number

/-- A value bound into a positional query parameter (`sqlx` `bind`):
hash bytes or a signed 64-bit integer. -/
inductive BindValue where
  | bytes (bs : Bytes)
  | int (i : Int)
deriving DecidableEq, Repr

/-- An `sqlx` query, abstracted to its list of bound positional parameters. -/
structure Query where
  params : List BindValue
deriving DecidableEq, Repr

def Query.bind (query : Query) (v : BindValue) : Query :=
  ⟨query.params ++ [v]⟩

/-- Embeds `bind_block_where_sql_params`: hash ids bind the hash bytes, exact-number
ids bind `number.as_u64() as i64`, every other id returns the query
unchanged. -/
def bind_block_where_sql_params (block_id : BlockId) (query : Query) : Query :=
  match block_id with
  | BlockId.Hash block_hash => query.bind (BindValue.bytes block_hash)
  | BlockId.Number (BlockNumber.Number number) => query.bind (BindValue.int (i64ofU64 number))
  | _ => query

/-- A row of the `miniblocks` table (the columns the resolver queries read). -/
structure MiniblockRow where
  number : Nat
  l1_batch_number : Nat
deriving DecidableEq, Repr

/-- A row of the `l1_batches` table (the columns the resolver queries read). -/
structure L1BatchRow where
  number : Nat
  eth_execute_tx_id : Option Nat
deriving DecidableEq, Repr

/-- A row of the `eth_txs` table (the columns the resolver queries read). -/
structure EthTxRow where
  id : Nat
  confirmed_eth_tx_history_id : Option Nat
deriving DecidableEq, Repr

/-- The persisted chain state the emitted SQL is evaluated against. -/
structure ChainState where
  miniblocks : List MiniblockRow
  l1_batches : List L1BatchRow
  eth_txs : List EthTxRow
deriving DecidableEq, Repr

/-- SQL `MAX(..)` over a column: `NULL` (`none`) on an empty set. -/
def sqlMax : List Nat → Option Nat
  | [] => none
  | n :: l =>
    some (match sqlMax l with
      | none => n
      | some m => max n m)

/-- The join/filter of the finalized query: a batch row joins some `eth_txs`
row on `l1_batches.eth_execute_tx_id = eth_txs.id` (a SQL equality, so a
`NULL` execute-tx id never joins) with
`eth_txs.confirmed_eth_tx_history_id IS NOT NULL`. -/
def confirmedBatch (s : ChainState) (b : L1BatchRow) : Bool :=
  s.eth_txs.any fun t =>
    b.eth_execute_tx_id == some t.id && t.confirmed_eth_tx_history_id.isSome

/-- Embeds `SELECT MAX(number) FROM l1_batches JOIN eth_txs .. WHERE confirmed ..`:
the column list it maximises over. -/
def confirmedBatchNumbers (s : ChainState) : List Nat :=
  (s.l1_batches.filter (confirmedBatch s)).map L1BatchRow.number

/-- Embeds `SELECT MAX(number) FROM miniblocks WHERE l1_batch_number = b`:
the column list it maximises over. -/
def miniblockNumbersInBatch (s : ChainState) (b : Nat) : List Nat :=
  (s.miniblocks.filter fun m => m.l1_batch_number == b).map MiniblockRow.number

/-- Evaluation of the `Finalized` SQL expression: the inner subquery picks the
maximum confirmed batch number (comparison with a `NULL` subquery result
matches no miniblock row), and `COALESCE(.., 0)` turns `NULL` into 0. -/
def resolveFinalizedSql (s : ChainState) : Nat :=
  (match sqlMax (confirmedBatchNumbers s) with
    | none => none
    | some b => sqlMax (miniblockNumbersInBatch s b)).getD 0

/-- Evaluation of each SQL expression emitted by `web3_block_number_to_sql`
against a chain state (`none` = the SQL expression evaluates to `NULL`). -/
def resolveBlockNumber (s : ChainState) : BlockNumber → Option Nat
  | BlockNumber.Number number => some number
  | BlockNumber.Earliest => some 0
  | BlockNumber.Pending => (sqlMax (s.miniblocks.map MiniblockRow.number)).map (· + 1)
  | BlockNumber.Latest | BlockNumber.Committed => sqlMax (s.miniblocks.map MiniblockRow.number)
  | BlockNumber.Finalized => some (resolveFinalizedSql s)

/-- Whether a miniblock's containing batch has an execute-transaction record
with a non-null base-layer confirmation id.  This is the spec's wording of
the finalized rule, stated directly (for comparison with the SQL the code
emits, which instead restricts to the maximal confirmed batch). -/
def miniblockHasConfirmedBatch (s : ChainState) (m : MiniblockRow) : Bool :=
  s.l1_batches.any fun b => b.number == m.l1_batch_number && confirmedBatch s b

/-- The numbers of all miniblocks whose containing batch is confirmed. -/
def confirmedMiniblockNumbers (s : ChainState) : List Nat :=
  (s.miniblocks.filter (miniblockHasConfirmedBatch s)).map MiniblockRow.number

/-- The spec's wording of `resolve(finalized)`: the maximum miniblock number
whose containing batch has a confirmed execute transaction, and 0 if none
exists. -/
def specFinalized (s : ChainState) : Nat :=
  (sqlMax (confirmedMiniblockNumbers s)).getD 0

/-- Reachable chain states (spec §3/§5/glossary): an L1 batch is an
aggregation of consecutive miniblocks sealed together, so batch membership is
monotone in the miniblock number, and a batch with an execute transaction on
record was sealed with at least one miniblock in it. -/
def wellFormed (s : ChainState) : Prop :=
  (∀ b ∈ s.l1_batches, confirmedBatch s b = true →
    ∃ m ∈ s.miniblocks, m.l1_batch_number = b.number) ∧
  (∀ m₁ ∈ s.miniblocks, ∀ m₂ ∈ s.miniblocks,
    m₁.l1_batch_number < m₂.l1_batch_number → m₁.number ≤ m₂.number)

instance (s : ChainState) : Decidable (wellFormed s) := by
  unfold wellFormed
  infer_instance

/-- Whether a block id carries a positional query parameter (a hash or an
exact number), as opposed to a symbolic/dynamic tag. -/
def isParameterized : BlockId → Bool
  | BlockId.Hash _ => true
  | BlockId.Number (BlockNumber.Number _) => true
  | _ => false

/-- Number of positional parameter slots (occurrences of the char used to
mark them) in an emitted SQL string. -/
def countDollar (s : String) : Nat := s.data.count '$'

/-- A 32-byte sample value for populating hash columns. -/
def sampleBytes32 : Bytes := List.replicate 32 1

/-- A fully populated, well-formed raw batch row: every nullable commitment
column is set, hash columns hold 32 bytes, array columns are empty. -/
def goodStorageL1Batch : StorageL1Batch where
  number := 1
  timestamp := 1000
  is_finished := true
  l1_tx_count := 2
  l2_tx_count := 3
  fee_account_address := List.replicate 20 7
  bloom := List.replicate 256 0
  l2_to_l1_logs := []
  priority_ops_onchain_data := []
  created_at := 0
  updated_at := 0
  parent_hash := some sampleBytes32
  hash := some sampleBytes32
  merkle_root_hash := some sampleBytes32
  commitment := some sampleBytes32
  meta_parameters_hash := some sampleBytes32
  pass_through_data_hash := some sampleBytes32
  aux_data_hash := some sampleBytes32
  rollup_last_leaf_index := some 23
  zkporter_is_available := some false
  bootloader_code_hash := some sampleBytes32
  default_aa_code_hash := some sampleBytes32
  l2_to_l1_messages := []
  l2_l1_compressed_messages := some []
  l2_l1_merkle_root := some sampleBytes32
  compressed_initial_writes := some []
  compressed_repeated_writes := some []
  compressed_write_logs := none
  compressed_contracts := none
  eth_prove_tx_id := none
  eth_commit_tx_id := none
  eth_execute_tx_id := none
  predicted_commit_gas_cost := 0
  predicted_prove_gas_cost := 0
  predicted_execute_gas_cost := 0
  initial_bootloader_heap_content := some []
  used_contract_hashes := some []
  base_fee_per_gas := 250000000
  l1_gas_price := 100
  l2_fair_gas_price := 50
  gas_per_pubdata_byte_in_block := none
  gas_per_pubdata_limit := 0
  skip_proof := false

/-- The raw batch row of the C1 counterexample: fully populated, but with a
negative (still valid `i64`) `rollup_last_leaf_index`. -/
def negativeIndexBatch : StorageL1Batch :=
  { goodStorageL1Batch with rollup_last_leaf_index := some (-1) }

/-- The raw batch row of the C2 counterexample: `l1_tx_count` exceeds the
16-bit range (70000 is a valid `i32` column value). -/
def overflowCountBatch : StorageL1Batch :=
  { goodStorageL1Batch with l1_tx_count := 70000 }

/-- The raw batch row of the C3 counterexample: array-typed fields decode
fine (they are empty), but `bootloader_code_hash` is NULL. -/
def missingBootloaderBatch : StorageL1Batch :=
  { goodStorageL1Batch with bootloader_code_hash := none }

/-- A well-formed raw miniblock row with an out-of-16-bit-range `l2_tx_count`
(for the C2 counterexample on the miniblock conversion). -/
def overflowCountMiniblock : StorageMiniblockHeader where
  number := 100
  timestamp := 1000
  hash := sampleBytes32
  l1_tx_count := 1
  l2_tx_count := 65537
  base_fee_per_gas := 250000000
  l1_gas_price := 100
  l2_fair_gas_price := 50
  bootloader_code_hash := some sampleBytes32
  default_aa_code_hash := some sampleBytes32

/-- A raw block-detail row that converts successfully: absent tx hashes,
absent fee account (so the fallback operator address is used). -/
def goodBlockDetails : StorageBlockDetails where
  number := 5
  l1_batch_number := 2
  timestamp := 1000
  l1_tx_count := 1
  l2_tx_count := 2
  root_hash := some sampleBytes32
  commit_tx_hash := none
  committed_at := none
  prove_tx_hash := none
  proven_at := none
  execute_tx_hash := none
  executed_at := none
  l1_gas_price := 100
  l2_fair_gas_price := 50
  bootloader_code_hash := some sampleBytes32
  default_aa_code_hash := some sampleBytes32
  fee_account_address := none

/-- A raw batch-detail row that converts successfully. -/
def goodL1BatchDetails : StorageL1BatchDetails where
  number := 3
  timestamp := 1000
  l1_tx_count := 1
  l2_tx_count := 2
  root_hash := none
  commit_tx_hash := none
  committed_at := none
  prove_tx_hash := none
  proven_at := none
  execute_tx_hash := some (String.mk (List.replicate 64 'a'))
  executed_at := some 7
  l1_gas_price := 100
  l2_fair_gas_price := 50
  bootloader_code_hash := some sampleBytes32
  default_aa_code_hash := some sampleBytes32

/-- The chain state of the spec's finalized example: batch 1's execute
transaction is confirmed, batch 2's is not; miniblocks 1 and 2 are in
batch 1, miniblock 3 in batch 2. -/
def exampleChainState : ChainState where
  miniblocks := [⟨1, 1⟩, ⟨2, 1⟩, ⟨3, 2⟩]
  l1_batches := [⟨1, some 10⟩, ⟨2, some 11⟩]
  eth_txs := [⟨10, some 100⟩, ⟨11, none⟩]

/-- A nullable hash column either is NULL or holds exactly 32 bytes (the
width `H256::from_slice` requires). -/
def sized32 : Option Bytes → Bool
  | none => true
  | some v => v.length == 32

/-- Every populated hash column of the raw batch row holds exactly 32 bytes. -/
def hashFieldsWellSized (s : StorageL1Batch) : Bool :=
  sized32 s.hash && sized32 s.merkle_root_hash && sized32 s.l2_l1_merkle_root &&
  sized32 s.aux_data_hash && sized32 s.meta_parameters_hash &&
  sized32 s.pass_through_data_hash && sized32 s.commitment &&
  sized32 s.bootloader_code_hash && sized32 s.default_aa_code_hash

/-- At least one of the fourteen derived commitment columns is NULL. -/
def metadataFieldMissing (s : StorageL1Batch) : Bool :=
  s.hash.isNone || s.rollup_last_leaf_index.isNone || s.merkle_root_hash.isNone ||
  s.compressed_initial_writes.isNone || s.compressed_repeated_writes.isNone ||
  s.l2_l1_compressed_messages.isNone || s.l2_l1_merkle_root.isNone ||
  s.aux_data_hash.isNone || s.meta_parameters_hash.isNone ||
  s.pass_through_data_hash.isNone || s.commitment.isNone ||
  s.zkporter_is_available.isNone || s.bootloader_code_hash.isNone ||
  s.default_aa_code_hash.isNone

/-- The metadata value `negativeIndexBatch` converts to: every byte field is
carried over unchanged, but the negative leaf index reappears reinterpreted
as an unsigned 64-bit value. -/
def negIndexMetadata : L1BatchMetadata where
  root_hash := sampleBytes32
  rollup_last_leaf_index := 18446744073709551615
  merkle_root_hash := sampleBytes32
  initial_writes_compressed := []
  repeated_writes_compressed := []
  l2_l1_messages_compressed := []
  l2_l1_merkle_root := sampleBytes32
  aux_data_hash := sampleBytes32
  meta_parameters_hash := sampleBytes32
  pass_through_data_hash := sampleBytes32
  commitment := sampleBytes32
  block_meta_params :=
    { zkporter_is_available := false
      bootloader_code_hash := sampleBytes32
      default_aa_code_hash := sampleBytes32 }

/-- The header `goodStorageL1Batch` converts to. -/
def goodL1BatchHeaderConverted : L1BatchHeader where
  number := 1
  is_finished := true
  timestamp := 1000
  fee_account_address := List.replicate 20 7
  priority_ops_onchain_data := []
  l1_tx_count := 2
  l2_tx_count := 3
  l2_to_l1_logs := []
  l2_to_l1_messages := []
  bloom := List.replicate 256 0
  initial_bootloader_contents := []
  used_contract_hashes := []
  base_fee_per_gas := 250000000
  base_system_contracts_hashes :=
    { bootloader := sampleBytes32, default_aa := sampleBytes32 }
  l1_gas_price := 100
  l2_fair_gas_price := 50

/-- The miniblock header `overflowCountMiniblock` converts to: note the
stored `l2_tx_count` 65537 comes out as 1. -/
def overflowMiniblockConverted : MiniblockHeader where
  number := 100
  timestamp := 1000
  hash := sampleBytes32
  l1_tx_count := 1
  l2_tx_count := 1
  base_fee_per_gas := 250000000
  l1_gas_price := 100
  l2_fair_gas_price := 50
  base_system_contracts_hashes :=
    { bootloader := sampleBytes32, default_aa := sampleBytes32 }

/-- The block details `goodBlockDetails` converts to under fallback operator
address `List.replicate 20 9`. -/
def goodBlockDetailsConverted : BlockDetails where
  number := 5
  l1_batch_number := 2
  timestamp := 1000
  l1_tx_count := 1
  l2_tx_count := 2
  status := BlockStatus.Sealed
  root_hash := some sampleBytes32
  commit_tx_hash := none
  committed_at := none
  prove_tx_hash := none
  proven_at := none
  execute_tx_hash := none
  executed_at := none
  l1_gas_price := 100
  l2_fair_gas_price := 50
  base_system_contracts_hashes :=
    { bootloader := sampleBytes32, default_aa := sampleBytes32 }
  operator_address := List.replicate 20 9

/-- The batch details `goodL1BatchDetails` converts to. -/
def goodL1BatchDetailsConverted : L1BatchDetails where
  number := 3
  timestamp := 1000
  l1_tx_count := 1
  l2_tx_count := 2
  status := BlockStatus.Verified
  root_hash := none
  commit_tx_hash := none
  committed_at := none
  prove_tx_hash := none
  proven_at := none
  execute_tx_hash := some (List.replicate 32 170)
  executed_at := some 7
  l1_gas_price := 100
  l2_fair_gas_price := 50
  base_system_contracts_hashes :=
    { bootloader := sampleBytes32, default_aa := sampleBytes32 }

theorem sqlMax_eq_none_iff (l : List Nat) : sqlMax l = none ↔ l = [] := by
  cases l <;> simp [sqlMax]

theorem sqlMax_mem : ∀ {l : List Nat} {m : Nat}, sqlMax l = some m → m ∈ l := by
  intro l
  induction l with
  | nil => intro m h; simp [sqlMax] at h
  | cons n t ih =>
    intro m h
    simp only [sqlMax, Option.some.injEq] at h
    cases ht : sqlMax t with
    | none =>
      rw [ht] at h
      simp at h
      simp [h]
    | some k =>
      rw [ht] at h
      simp at h
      rcases max_choice n k with hc | hc
      · rw [hc] at h
        simp [h]
      · rw [hc] at h
        exact List.mem_cons_of_mem n (ih (h ▸ ht))

theorem le_sqlMax : ∀ {l : List Nat} {m x : Nat}, sqlMax l = some m → x ∈ l → x ≤ m := by
  intro l
  induction l with
  | nil => intro m x _ hx; cases hx
  | cons n t ih =>
    intro m x h hx
    simp only [sqlMax, Option.some.injEq] at h
    cases ht : sqlMax t with
    | none =>
      rw [ht] at h
      simp at h
      have hte : t = [] := (sqlMax_eq_none_iff t).1 ht
      subst hte
      simp at hx
      omega
    | some k =>
      rw [ht] at h
      simp at h
      subst h
      rcases List.mem_cons.1 hx with rfl | hxt
      · exact le_max_left _ _
      · exact Nat.le_trans (ih ht hxt) (le_max_right _ _)

theorem sqlMax_isSome_of_mem {l : List Nat} {x : Nat} (hx : x ∈ l) :
    ∃ m, sqlMax l = some m := by
  cases l with
  | nil => cases hx
  | cons n t => exact ⟨_, rfl⟩

theorem mem_confirmedBatchNumbers {s : ChainState} {x : Nat} :
    x ∈ confirmedBatchNumbers s ↔
      ∃ b, (b ∈ s.l1_batches ∧ confirmedBatch s b = true) ∧ b.number = x := by
  simp [confirmedBatchNumbers, List.mem_map, List.mem_filter]

theorem mem_miniblockNumbersInBatch {s : ChainState} {bn x : Nat} :
    x ∈ miniblockNumbersInBatch s bn ↔
      ∃ m, (m ∈ s.miniblocks ∧ m.l1_batch_number = bn) ∧ m.number = x := by
  simp [miniblockNumbersInBatch, List.mem_map, List.mem_filter]

theorem mem_confirmedMiniblockNumbers {s : ChainState} {x : Nat} :
    x ∈ confirmedMiniblockNumbers s ↔
      ∃ m, (m ∈ s.miniblocks ∧ miniblockHasConfirmedBatch s m = true) ∧ m.number = x := by
  simp [confirmedMiniblockNumbers, List.mem_map, List.mem_filter]

theorem miniblockHasConfirmedBatch_iff {s : ChainState} {m : MiniblockRow} :
    miniblockHasConfirmedBatch s m = true ↔
      ∃ b ∈ s.l1_batches, b.number = m.l1_batch_number ∧ confirmedBatch s b = true := by
  simp [miniblockHasConfirmedBatch, List.any_eq_true, Bool.and_eq_true]

theorem finalized_zero_of_unconfirmed (s : ChainState)
    (h : ∀ b ∈ s.l1_batches, confirmedBatch s b = false) : resolveFinalizedSql s = 0 := by
  have hf : s.l1_batches.filter (confirmedBatch s) = [] :=
    List.filter_eq_nil_iff.mpr fun b hb => by simp [h b hb]
  have hc : confirmedBatchNumbers s = [] := by
    unfold confirmedBatchNumbers
    rw [hf]
    rfl
  unfold resolveFinalizedSql
  rw [hc]
  rfl

theorem finalized_le_latest (s : ChainState) {latest : Nat}
    (hl : resolveBlockNumber s BlockNumber.Latest = some latest) :
    resolveFinalizedSql s ≤ latest := by
  have hl' : sqlMax (s.miniblocks.map MiniblockRow.number) = some latest := hl
  unfold resolveFinalizedSql
  cases hC : sqlMax (confirmedBatchNumbers s) with
  | none => simp
  | some B =>
    show (sqlMax (miniblockNumbersInBatch s B)).getD 0 ≤ latest
    cases hI : sqlMax (miniblockNumbersInBatch s B) with
    | none => simp
    | some v =>
      simp only [Option.getD_some]
      rcases mem_miniblockNumbersInBatch.1 (sqlMax_mem hI) with ⟨m, ⟨hm, _⟩, rfl⟩
      exact le_sqlMax hl' (List.mem_map_of_mem MiniblockRow.number hm)

theorem finalized_eq_spec (s : ChainState) (hwf : wellFormed s) :
    resolveFinalizedSql s = specFinalized s := by
  obtain ⟨hne, hmono⟩ := hwf
  unfold resolveFinalizedSql specFinalized
  cases hC : sqlMax (confirmedBatchNumbers s) with
  | none =>
    have hCnil : confirmedBatchNumbers s = [] := (sqlMax_eq_none_iff _).1 hC
    have hs : confirmedMiniblockNumbers s = [] := by
      rcases hs' : confirmedMiniblockNumbers s with _ | ⟨x, t⟩
      · rfl
      · exfalso
        have hx : x ∈ confirmedMiniblockNumbers s := by rw [hs']; simp
        rcases mem_confirmedMiniblockNumbers.1 hx with ⟨m, ⟨_, hconf⟩, _⟩
        rcases miniblockHasConfirmedBatch_iff.1 hconf with ⟨b, hb, _, hbc⟩
        have : b.number ∈ confirmedBatchNumbers s :=
          mem_confirmedBatchNumbers.2 ⟨b, ⟨hb, hbc⟩, rfl⟩
        rw [hCnil] at this
        cases this
    rw [hs]
    rfl
  | some B =>
    rcases mem_confirmedBatchNumbers.1 (sqlMax_mem hC) with ⟨b, ⟨hb, hbc⟩, hbn⟩
    rcases hne b hb hbc with ⟨m0, hm0, hm0b⟩
    have hm0in : m0.number ∈ miniblockNumbersInBatch s B :=
      mem_miniblockNumbersInBatch.2 ⟨m0, ⟨hm0, by rw [hm0b, hbn]⟩, rfl⟩
    rcases sqlMax_isSome_of_mem hm0in with ⟨v, hv⟩
    rcases mem_miniblockNumbersInBatch.1 (sqlMax_mem hv) with ⟨mv, ⟨hmv, hmvB⟩, hmvn⟩
    have hmvconf : miniblockHasConfirmedBatch s mv = true :=
      miniblockHasConfirmedBatch_iff.2 ⟨b, hb, by rw [hbn, hmvB], hbc⟩
    have hvmem : v ∈ confirmedMiniblockNumbers s :=
      mem_confirmedMiniblockNumbers.2 ⟨mv, ⟨hmv, hmvconf⟩, hmvn⟩
    rcases sqlMax_isSome_of_mem hvmem with ⟨w, hw⟩
    have hvw : v ≤ w := le_sqlMax hw hvmem
    have hwv : w ≤ v := by
      rcases mem_confirmedMiniblockNumbers.1 (sqlMax_mem hw) with ⟨mw, ⟨hmw, hmwc⟩, hmwn⟩
      rcases miniblockHasConfirmedBatch_iff.1 hmwc with ⟨b', hb', hb'n, hb'c⟩
      have hb'mem : mw.l1_batch_number ∈ confirmedBatchNumbers s :=
        mem_confirmedBatchNumbers.2 ⟨b', ⟨hb', hb'c⟩, hb'n⟩
      have hb'le : mw.l1_batch_number ≤ B := le_sqlMax hC hb'mem
      rcases Nat.lt_or_ge mw.l1_batch_number B with hlt | hge
      · have hmono' : mw.number ≤ m0.number := by
          apply hmono mw hmw m0 hm0
          rw [hm0b, hbn]
          exact hlt
        have : m0.number ≤ v := le_sqlMax hv hm0in
        rw [← hmwn]
        exact Nat.le_trans hmono' this
      · have hBeq : mw.l1_batch_number = B := Nat.le_antisymm hb'le hge
        have : mw.number ∈ miniblockNumbersInBatch s B :=
          mem_miniblockNumbersInBatch.2 ⟨mw, ⟨hmw, hBeq⟩, rfl⟩
        rw [← hmwn]
        exact le_sqlMax hv this
    show (sqlMax (miniblockNumbersInBatch s B)).getD 0 =
      (sqlMax (confirmedMiniblockNumbers s)).getD 0
    rw [hv, hw]
    simp [Nat.le_antisymm hvw hwv]

theorem digitChar_lt_ten_ne_dollar {m : Nat} (hm : m < 10) : Nat.digitChar m ≠ '$' := by
  interval_cases m <;> decide

theorem toDigitsCore_no_dollar :
    ∀ (fuel n : Nat) (acc : List Char), '$' ∉ acc → '$' ∉ Nat.toDigitsCore 10 fuel n acc := by
  intro fuel
  induction fuel with
  | zero =>
    intro n acc h
    simpa [Nat.toDigitsCore] using h
  | succ f ih =>
    intro n acc h
    unfold Nat.toDigitsCore
    have hcons : '$' ∉ Nat.digitChar (n % 10) :: acc := by
      intro hm
      rcases List.mem_cons.1 hm with he | ha
      · exact digitChar_lt_ten_ne_dollar (Nat.mod_lt n (by decide)) he.symm
      · exact h ha
    show '$' ∉ (if n / 10 = 0 then Nat.digitChar (n % 10) :: acc
      else Nat.toDigitsCore 10 f (n / 10) (Nat.digitChar (n % 10) :: acc))
    by_cases hnd : n / 10 = 0
    · rw [if_pos hnd]
      exact hcons
    · rw [if_neg hnd]
      exact ih (n / 10) _ hcons

theorem countDollar_repr (n : Nat) : countDollar (Nat.repr n) = 0 := by
  have h : '$' ∉ Nat.toDigits 10 n :=
    toDigitsCore_no_dollar (n + 1) n [] (by simp)
  show (Nat.toDigits 10 n).count '$' = 0
  exact List.count_eq_zero.2 h

theorem countDollar_append (a b : String) :
    countDollar (a ++ b) = countDollar a + countDollar b := by
  unfold countDollar
  rw [String.data_append]
  exact List.count_append _ _ _

theorem h256_fromSlice_of_length {v : Bytes} (h : v.length = 32) :
    H256.fromSlice v = some v := by
  unfold H256.fromSlice
  rw [if_pos h]

theorem address_fromSlice_of_length {v : Bytes} (h : v.length = 20) :
    Address.fromSlice v = some v := by
  unfold Address.fromSlice
  rw [if_pos h]

theorem h2048_fromSlice_of_length {v : Bytes} (h : v.length = 256) :
    H2048.fromSlice v = some v := by
  unfold H2048.fromSlice
  rw [if_pos h]

theorem address_eq_of_fromSlice_eq_some {v w : Bytes} (h : Address.fromSlice v = some w) :
    w = v := by
  unfold Address.fromSlice at h
  by_cases hl : v.length = 20
  · rw [if_pos hl] at h
    exact (Option.some.inj h).symm
  · rw [if_neg hl] at h
    cases h

theorem length_of_sized32 {o : Option Bytes} {v : Bytes}
    (ho : o = some v) (h : sized32 o = true) : v.length = 32 := by
  subst ho
  simpa [sized32] using h

theorem optionMapOrPanic_eq_some {f : α → Option β} {o : Option α} {r : Option β}
    (h : optionMapOrPanic f o = some r) :
    (o = none ∧ r = none) ∨ ∃ a b, o = some a ∧ f a = some b ∧ r = some b := by
  cases o with
  | none =>
    refine Or.inl ⟨rfl, ?_⟩
    simpa [optionMapOrPanic] using h.symm
  | some a =>
    simp only [optionMapOrPanic] at h
    cases hf : f a with
    | none =>
      rw [hf] at h
      simp at h
    | some b =>
      rw [hf] at h
      simp at h
      exact Or.inr ⟨a, b, rfl, hf, h.symm⟩

/-- C1 (amended): for a raw batch record whose populated hash columns are
well-sized (32 bytes), the `TryInto<L1BatchMetadata>` conversion fails with
`Incomplete` whenever at least one of the fourteen derived commitment fields
is `None`, and succeeds whenever all fourteen are `Some`, returning each
input field unchanged — except `rollup_last_leaf_index`, which is the
unchecked `as u64` reinterpretation of the stored `i64` (equal to the input
exactly when the input is nonnegative). -/
theorem metadata_assembly (s : StorageL1Batch) (hsz : hashFieldsWellSized s = true) :
    (metadataFieldMissing s = true →
      tryIntoL1BatchMetadata s = some (Except.error StorageL1BatchConvertError.Incomplete))
    ∧ (∀ (hv mrh ciw crw clm lmr adh mph ptd cm bch dah : Bytes) (lidx : Int) (zk : Bool),
        s.hash = some hv → s.rollup_last_leaf_index = some lidx →
        s.merkle_root_hash = some mrh → s.compressed_initial_writes = some ciw →
        s.compressed_repeated_writes = some crw → s.l2_l1_compressed_messages = some clm →
        s.l2_l1_merkle_root = some lmr → s.aux_data_hash = some adh →
        s.meta_parameters_hash = some mph → s.pass_through_data_hash = some ptd →
        s.commitment = some cm → s.zkporter_is_available = some zk →
        s.bootloader_code_hash = some bch → s.default_aa_code_hash = some dah →
        tryIntoL1BatchMetadata s = some (Except.ok
          { root_hash := hv
            rollup_last_leaf_index := u64ofI64 lidx
            merkle_root_hash := mrh
            initial_writes_compressed := ciw
            repeated_writes_compressed := crw
            l2_l1_messages_compressed := clm
            l2_l1_merkle_root := lmr
            aux_data_hash := adh
            meta_parameters_hash := mph
            pass_through_data_hash := ptd
            commitment := cm
            block_meta_params :=
              { zkporter_is_available := zk
                bootloader_code_hash := bch
                default_aa_code_hash := dah } })) := by
  have hsz' := hsz
  simp only [hashFieldsWellSized, Bool.and_eq_true] at hsz'
  obtain ⟨⟨⟨⟨⟨⟨⟨⟨z1, z2⟩, z3⟩, z4⟩, z5⟩, z6⟩, z7⟩, z8⟩, z9⟩ := hsz'
  constructor
  · intro hm
    by_cases hh : s.hash = none
    · simp [tryIntoL1BatchMetadata, hh]
    obtain ⟨hv, hh⟩ := Option.ne_none_iff_exists'.1 hh
    have e1 : H256.fromSlice hv = some hv :=
      h256_fromSlice_of_length (length_of_sized32 hh z1)
    by_cases hr : s.rollup_last_leaf_index = none
    · simp [tryIntoL1BatchMetadata, hh, e1, hr]
    obtain ⟨lidx, hr⟩ := Option.ne_none_iff_exists'.1 hr
    by_cases h3 : s.merkle_root_hash = none
    · simp [tryIntoL1BatchMetadata, hh, e1, hr, h3]
    obtain ⟨mrh, h3⟩ := Option.ne_none_iff_exists'.1 h3
    have e2 : H256.fromSlice mrh = some mrh :=
      h256_fromSlice_of_length (length_of_sized32 h3 z2)
    by_cases h4 : s.compressed_initial_writes = none
    · simp [tryIntoL1BatchMetadata, hh, e1, hr, h3, e2, h4]
    obtain ⟨ciw, h4⟩ := Option.ne_none_iff_exists'.1 h4
    by_cases h5 : s.compressed_repeated_writes = none
    · simp [tryIntoL1BatchMetadata, hh, e1, hr, h3, e2, h4, h5]
    obtain ⟨crw, h5⟩ := Option.ne_none_iff_exists'.1 h5
    by_cases h6 : s.l2_l1_compressed_messages = none
    · simp [tryIntoL1BatchMetadata, hh, e1, hr, h3, e2, h4, h5, h6]
    obtain ⟨clm, h6⟩ := Option.ne_none_iff_exists'.1 h6
    by_cases h7 : s.l2_l1_merkle_root = none
    · simp [tryIntoL1BatchMetadata, hh, e1, hr, h3, e2, h4, h5, h6, h7]
    obtain ⟨lmr, h7⟩ := Option.ne_none_iff_exists'.1 h7
    have e3 : H256.fromSlice lmr = some lmr :=
      h256_fromSlice_of_length (length_of_sized32 h7 z3)
    by_cases h8 : s.aux_data_hash = none
    · simp [tryIntoL1BatchMetadata, hh, e1, hr, h3, e2, h4, h5, h6, h7, e3, h8]
    obtain ⟨adh, h8⟩ := Option.ne_none_iff_exists'.1 h8
    have e4 : H256.fromSlice adh = some adh :=
      h256_fromSlice_of_length (length_of_sized32 h8 z4)
    by_cases h9 : s.meta_parameters_hash = none
    · simp [tryIntoL1BatchMetadata, hh, e1, hr, h3, e2, h4, h5, h6, h7, e3, h8, e4, h9]
    obtain ⟨mph, h9⟩ := Option.ne_none_iff_exists'.1 h9
    have e5 : H256.fromSlice mph = some mph :=
      h256_fromSlice_of_length (length_of_sized32 h9 z5)
    by_cases h10 : s.pass_through_data_hash = none
    · simp [tryIntoL1BatchMetadata, hh, e1, hr, h3, e2, h4, h5, h6, h7, e3, h8, e4, h9, e5, h10]
    obtain ⟨ptd, h10⟩ := Option.ne_none_iff_exists'.1 h10
    have e6 : H256.fromSlice ptd = some ptd :=
      h256_fromSlice_of_length (length_of_sized32 h10 z6)
    by_cases h11 : s.commitment = none
    · simp [tryIntoL1BatchMetadata, hh, e1, hr, h3, e2, h4, h5, h6, h7, e3, h8, e4, h9, e5,
        h10, e6, h11]
    obtain ⟨cm, h11⟩ := Option.ne_none_iff_exists'.1 h11
    have e7 : H256.fromSlice cm = some cm :=
      h256_fromSlice_of_length (length_of_sized32 h11 z7)
    by_cases h12 : s.zkporter_is_available = none
    · simp [tryIntoL1BatchMetadata, hh, e1, hr, h3, e2, h4, h5, h6, h7, e3, h8, e4, h9, e5,
        h10, e6, h11, e7, h12]
    obtain ⟨zk, h12⟩ := Option.ne_none_iff_exists'.1 h12
    by_cases h13 : s.bootloader_code_hash = none
    · simp [tryIntoL1BatchMetadata, hh, e1, hr, h3, e2, h4, h5, h6, h7, e3, h8, e4, h9, e5,
        h10, e6, h11, e7, h12, h13]
    obtain ⟨bch, h13⟩ := Option.ne_none_iff_exists'.1 h13
    have e8 : H256.fromSlice bch = some bch :=
      h256_fromSlice_of_length (length_of_sized32 h13 z8)
    by_cases h14 : s.default_aa_code_hash = none
    · simp [tryIntoL1BatchMetadata, hh, e1, hr, h3, e2, h4, h5, h6, h7, e3, h8, e4, h9, e5,
        h10, e6, h11, e7, h12, h13, e8, h14]
    obtain ⟨dah, h14⟩ := Option.ne_none_iff_exists'.1 h14
    exfalso
    have hfalse : metadataFieldMissing s = false := by
      simp [metadataFieldMissing, hh, hr, h3, h4, h5, h6, h7, h8, h9, h10, h11, h12, h13, h14]
    rw [hfalse] at hm
    cases hm
  · intro hv mrh ciw crw clm lmr adh mph ptd cm bch dah lidx zk
      h1 h2 h3 h4 h5 h6 h7 h8 h9 h10 h11 h12 h13 h14
    have e1 : H256.fromSlice hv = some hv :=
      h256_fromSlice_of_length (length_of_sized32 h1 z1)
    have e2 : H256.fromSlice mrh = some mrh :=
      h256_fromSlice_of_length (length_of_sized32 h3 z2)
    have e3 : H256.fromSlice lmr = some lmr :=
      h256_fromSlice_of_length (length_of_sized32 h7 z3)
    have e4 : H256.fromSlice adh = some adh :=
      h256_fromSlice_of_length (length_of_sized32 h8 z4)
    have e5 : H256.fromSlice mph = some mph :=
      h256_fromSlice_of_length (length_of_sized32 h9 z5)
    have e6 : H256.fromSlice ptd = some ptd :=
      h256_fromSlice_of_length (length_of_sized32 h10 z6)
    have e7 : H256.fromSlice cm = some cm :=
      h256_fromSlice_of_length (length_of_sized32 h11 z7)
    have e8 : H256.fromSlice bch = some bch :=
      h256_fromSlice_of_length (length_of_sized32 h13 z8)
    have e9 : H256.fromSlice dah = some dah :=
      h256_fromSlice_of_length (length_of_sized32 h14 z9)
    simp only [tryIntoL1BatchMetadata, h1, h2, h3, h4, h5, h6, h7, h8, h9, h10, h11, h12,
      h13, h14, e1, e2, e3, e4, e5, e6, e7, e8, e9]

/-- C1 counterexample: a fully populated record whose stored leaf index is
the valid `i64` value `-1` converts successfully, but the returned metadata
does not round-trip the index: it holds `2 ^ 64 - 1`. -/
theorem metadata_roundtrip_counterexample :
    negativeIndexBatch.rollup_last_leaf_index = some (-1)
    ∧ tryIntoL1BatchMetadata negativeIndexBatch = some (Except.ok negIndexMetadata)
    ∧ (negIndexMetadata.rollup_last_leaf_index : Int) ≠ (-1 : Int) :=
  ⟨rfl, rfl, by decide⟩

/-- C1 witness: the amended claim applied to a concrete fully populated
record. -/
theorem metadata_assembly_witness :
    tryIntoL1BatchMetadata goodStorageL1Batch = some (Except.ok
      { root_hash := sampleBytes32
        rollup_last_leaf_index := u64ofI64 23
        merkle_root_hash := sampleBytes32
        initial_writes_compressed := []
        repeated_writes_compressed := []
        l2_l1_messages_compressed := []
        l2_l1_merkle_root := sampleBytes32
        aux_data_hash := sampleBytes32
        meta_parameters_hash := sampleBytes32
        pass_through_data_hash := sampleBytes32
        commitment := sampleBytes32
        block_meta_params :=
          { zkporter_is_available := false
            bootloader_code_hash := sampleBytes32
            default_aa_code_hash := sampleBytes32 } }) :=
  (metadata_assembly goodStorageL1Batch (by decide)).2
    sampleBytes32 sampleBytes32 [] [] [] sampleBytes32 sampleBytes32 sampleBytes32
    sampleBytes32 sampleBytes32 sampleBytes32 sampleBytes32 23 false
    rfl rfl rfl rfl rfl rfl rfl rfl rfl rfl rfl rfl rfl rfl

/-- C2 (amended): the transaction-count narrowings in the header conversions
are unchecked `as` casts — whenever a conversion succeeds, the header holds
the stored count reduced modulo `2 ^ 16` (and the sequence number reduced
modulo `2 ^ 32`), so out-of-range values are silently truncated rather than
surfaced as a construction failure. -/
theorem tx_count_narrowing (s : StorageL1Batch) (h : L1BatchHeader)
    (hs : fromStorageL1BatchHeader s = some h)
    (row : StorageMiniblockHeader) (hm : MiniblockHeader)
    (hrow : fromStorageMiniblockHeader row = some hm) :
    h.l1_tx_count = u16ofI32 s.l1_tx_count
    ∧ h.l2_tx_count = u16ofI32 s.l2_tx_count
    ∧ h.number = u32ofI64 s.number
    ∧ hm.l1_tx_count = u16ofI32 row.l1_tx_count
    ∧ hm.l2_tx_count = u16ofI32 row.l2_tx_count
    ∧ hm.number = u32ofI64 row.number := by
  simp only [fromStorageL1BatchHeader] at hs
  repeat' split at hs
  all_goals try exact Option.noConfusion hs
  simp only [fromStorageMiniblockHeader] at hrow
  repeat' split at hrow
  all_goals try exact Option.noConfusion hrow
  injection hs with hs2
  injection hrow with hrow2
  subst hs2
  subst hrow2
  exact ⟨rfl, rfl, rfl, rfl, rfl, rfl⟩

/-- C2 counterexample: a stored `l1_tx_count` of 70000 (valid `i32`, above
the 16-bit range) does not make the conversion fail; the resulting header
holds 70000 mod 2^16 = 4464.  Likewise a stored miniblock `l2_tx_count` of
65537 comes out as 1. -/
theorem tx_count_truncation_counterexample :
    overflowCountBatch.l1_tx_count = 70000
    ∧ (fromStorageL1BatchHeader overflowCountBatch).map L1BatchHeader.l1_tx_count = some 4464
    ∧ overflowCountMiniblock.l2_tx_count = 65537
    ∧ fromStorageMiniblockHeader overflowCountMiniblock = some overflowMiniblockConverted
    ∧ overflowMiniblockConverted.l2_tx_count = 1 :=
  ⟨rfl, rfl, rfl, rfl, rfl⟩

/-- C2 witness: the amended claim applied to concrete rows that convert. -/
theorem tx_count_narrowing_witness :
    goodL1BatchHeaderConverted.l1_tx_count = u16ofI32 goodStorageL1Batch.l1_tx_count
    ∧ goodL1BatchHeaderConverted.l2_tx_count = u16ofI32 goodStorageL1Batch.l2_tx_count
    ∧ goodL1BatchHeaderConverted.number = u32ofI64 goodStorageL1Batch.number
    ∧ overflowMiniblockConverted.l1_tx_count = u16ofI32 overflowCountMiniblock.l1_tx_count
    ∧ overflowMiniblockConverted.l2_tx_count = u16ofI32 overflowCountMiniblock.l2_tx_count
    ∧ overflowMiniblockConverted.number = u32ofI64 overflowCountMiniblock.number :=
  tx_count_narrowing goodStorageL1Batch goodL1BatchHeaderConverted rfl
    overflowCountMiniblock overflowMiniblockConverted rfl

/-- C3 (amended): the header conversion never produces an `Incomplete`-style
error value, and it succeeds for every record whose array-typed fields decode
element-wise, whose JSON columns decode, whose base fee fits `u64`, whose
address/bloom columns have their exact widths, and whose system-contract hash
columns are populated with 32 bytes; but it is not total — a record whose
nullable `bootloader_code_hash` or `default_aa_code_hash` is NULL makes it
panic instead of returning a header. -/
theorem header_assembly_no_incomplete (s : StorageL1Batch)
    (hpri : ∃ ops, decodePriorityOps s.priority_ops_onchain_data = some ops)
    (hlogs : ∃ logs, decodeL2ToL1Logs s.l2_to_l1_logs = some logs)
    (hfee : s.fee_account_address.length = 20)
    (hbloom : s.bloom.length = 256)
    (hibc : ∃ c, s.initial_bootloader_heap_content = some c)
    (huch : ∃ u, s.used_contract_hashes = some u)
    (hbf : ∃ f, bigDecimalToU64 s.base_fee_per_gas = some f)
    (hbch : ∃ v, s.bootloader_code_hash = some v ∧ v.length = 32)
    (hdah : ∃ v, s.default_aa_code_hash = some v ∧ v.length = 32) :
    (fromStorageL1BatchHeader s).isSome = true := by
  obtain ⟨ops, h0⟩ := hpri
  obtain ⟨logs, h1⟩ := hlogs
  obtain ⟨c, h2⟩ := hibc
  obtain ⟨u, h3⟩ := huch
  obtain ⟨f, h4⟩ := hbf
  obtain ⟨bv, h5, h5l⟩ := hbch
  obtain ⟨dv, h6, h6l⟩ := hdah
  simp only [fromStorageL1BatchHeader, h0, h1, h2, h3, h4, h5, h6,
    address_fromSlice_of_length hfee, h2048_fromSlice_of_length hbloom,
    h256_fromSlice_of_length h5l, h256_fromSlice_of_length h6l]
  rfl

/-- C3 counterexample: a record whose array-typed fields decode (they are
empty) but whose `bootloader_code_hash` is NULL: the conversion panics
(`expect("should not be none")`) instead of returning a header. -/
theorem header_assembly_counterexample :
    missingBootloaderBatch.l2_to_l1_logs = []
    ∧ missingBootloaderBatch.priority_ops_onchain_data = []
    ∧ missingBootloaderBatch.bootloader_code_hash = none
    ∧ fromStorageL1BatchHeader missingBootloaderBatch = none :=
  ⟨rfl, rfl, rfl, rfl⟩

/-- C3 witness: the amended claim applied to a concrete well-formed row. -/
theorem header_assembly_no_incomplete_witness :
    (fromStorageL1BatchHeader goodStorageL1Batch).isSome = true :=
  header_assembly_no_incomplete goodStorageL1Batch
    ⟨[], rfl⟩ ⟨[], rfl⟩ (by decide) (by decide) ⟨[], rfl⟩ ⟨[], rfl⟩
    ⟨250000000, rfl⟩ ⟨sampleBytes32, rfl, by decide⟩ ⟨sampleBytes32, rfl, by decide⟩

/-- C4: in every reachable (well-formed) chain state, resolving `finalized`
yields the maximum miniblock number whose containing batch has an
execute-transaction record with a non-null base-layer confirmation id; it
yields 0 when no batch has a confirmed execute transaction; and it never
exceeds the value `latest` resolves to. -/
theorem finalized_resolution (s : ChainState) (hwf : wellFormed s) :
    resolveBlockNumber s BlockNumber.Finalized = some (specFinalized s)
    ∧ ((∀ b ∈ s.l1_batches, confirmedBatch s b = false) → resolveFinalizedSql s = 0)
    ∧ (∀ latest, resolveBlockNumber s BlockNumber.Latest = some latest →
        resolveFinalizedSql s ≤ latest) :=
  ⟨by
    show some (resolveFinalizedSql s) = some (specFinalized s)
    rw [finalized_eq_spec s hwf],
   finalized_zero_of_unconfirmed s,
   fun _ hl => finalized_le_latest s hl⟩

/-- C4 witness: the spec's example state — batch 1 confirmed, batch 2 not,
miniblocks 1 and 2 in batch 1, miniblock 3 in batch 2. -/
theorem finalized_resolution_witness :
    resolveBlockNumber exampleChainState BlockNumber.Finalized
      = some (specFinalized exampleChainState)
    ∧ specFinalized exampleChainState = 2 :=
  ⟨(finalized_resolution exampleChainState (by decide)).1, by decide⟩

/-- C5: for every chain state, the SQL emitted for `pending` evaluates to the
value of `latest` plus one (`NULL + 1` being `NULL` on an empty chain), and
`latest` and `committed` are the same descriptor. -/
theorem pending_resolution (s : ChainState) :
    resolveBlockNumber s BlockNumber.Pending
      = (resolveBlockNumber s BlockNumber.Latest).map (· + 1)
    ∧ resolveBlockNumber s BlockNumber.Latest = resolveBlockNumber s BlockNumber.Committed
    ∧ web3_block_number_to_sql BlockNumber.Latest
        = web3_block_number_to_sql BlockNumber.Committed :=
  ⟨rfl, rfl, rfl⟩

/-- C7: `expected_l1_batch` returns the explicit batch number when present
and the pending batch number otherwise; in particular it is 7 both for a
miniblock not yet assigned with pending batch 7 and after the explicit
assignment to batch 7. -/
theorem expected_l1_batch_rule (b p q : Nat) :
    ResolvedL1BatchForMiniblock.expected_l1_batch ⟨some b, p⟩ = b
    ∧ ResolvedL1BatchForMiniblock.expected_l1_batch ⟨none, q⟩ = q
    ∧ ResolvedL1BatchForMiniblock.expected_l1_batch ⟨none, 7⟩ = 7
    ∧ ResolvedL1BatchForMiniblock.expected_l1_batch ⟨some 7, 7⟩ = 7 :=
  ⟨rfl, rfl, rfl, rfl⟩

/-- C8: resolving `earliest` is the constant 0, for every chain state, and
the emitted SQL expression is the literal string "0". -/
theorem earliest_resolution (s : ChainState) :
    resolveBlockNumber s BlockNumber.Earliest = some 0
    ∧ web3_block_number_to_sql BlockNumber.Earliest = "0" :=
  ⟨rfl, rfl⟩

/-- C6: hash ids and exact-number ids produce a predicate with exactly one
positional parameter slot and bind exactly one value (the hash bytes,
respectively the number reinterpreted as `i64`); every symbolic/dynamic tag
produces a predicate with no positional parameter and leaves the query
unchanged. -/
theorem where_sql_param_arity (h : Bytes) (n : Nat) (idx : Nat) (q : Query) (t : BlockNumber) :
    countDollar (web3_block_where_sql (BlockId.Hash h) idx) = 1
    ∧ bind_block_where_sql_params (BlockId.Hash h) q = q.bind (BindValue.bytes h)
    ∧ countDollar (web3_block_where_sql (BlockId.Number (BlockNumber.Number n)) idx) = 1
    ∧ bind_block_where_sql_params (BlockId.Number (BlockNumber.Number n)) q
        = q.bind (BindValue.int (i64ofU64 n))
    ∧ (isParameterized (BlockId.Number t) = false →
        countDollar (web3_block_where_sql (BlockId.Number t) idx) = 0
        ∧ bind_block_where_sql_params (BlockId.Number t) q = q) := by
  refine ⟨?_, rfl, ?_, rfl, ?_⟩
  · show countDollar ("miniblocks.hash = $" ++ Nat.repr idx) = 1
    rw [countDollar_append, countDollar_repr]
    decide
  · show countDollar ("miniblocks.number = $" ++ Nat.repr idx) = 1
    rw [countDollar_append, countDollar_repr]
    decide
  · intro ht
    cases t with
    | Committed =>
      exact ⟨(by decide :
        countDollar ("miniblocks.number = " ++ web3_block_number_to_sql BlockNumber.Committed)
          = 0), rfl⟩
    | Finalized =>
      exact ⟨(by decide :
        countDollar ("miniblocks.number = " ++ web3_block_number_to_sql BlockNumber.Finalized)
          = 0), rfl⟩
    | Latest =>
      exact ⟨(by decide :
        countDollar ("miniblocks.number = " ++ web3_block_number_to_sql BlockNumber.Latest)
          = 0), rfl⟩
    | Earliest =>
      exact ⟨(by decide :
        countDollar ("miniblocks.number = " ++ web3_block_number_to_sql BlockNumber.Earliest)
          = 0), rfl⟩
    | Pending =>
      exact ⟨(by decide :
        countDollar ("miniblocks.number = " ++ web3_block_number_to_sql BlockNumber.Pending)
          = 0), rfl⟩
    | Number k => exact absurd ht (by simp [isParameterized])

/-- C6 witness: a symbolic tag at a concrete query. -/
theorem where_sql_param_arity_witness :
    countDollar (web3_block_where_sql (BlockId.Number BlockNumber.Pending) 1) = 0
    ∧ bind_block_where_sql_params (BlockId.Number BlockNumber.Pending) (Query.mk [])
        = Query.mk [] :=
  (where_sql_param_arity [] 0 1 (Query.mk []) BlockNumber.Pending).2.2.2.2 (by decide)

theorem intoBlockDetails_spec (self : StorageBlockDetails) (addr : Bytes) (bd : BlockDetails)
    (hconv : intoBlockDetails self addr = some bd) :
    bd.status = (if self.number == 0 || self.execute_tx_hash.isSome then BlockStatus.Verified
      else BlockStatus.Sealed)
    ∧ ∃ fee, optionMapOrPanic Address.fromSlice self.fee_account_address = some fee
        ∧ bd.operator_address = fee.getD addr := by
  simp only [intoBlockDetails] at hconv
  repeat' split at hconv
  all_goals try exact Option.noConfusion hconv
  all_goals injection hconv with hbd
  all_goals subst hbd
  all_goals rename_i x fee hfee hcond
  · exact ⟨(if_pos hcond).symm, fee, hfee, rfl⟩
  · exact ⟨(if_neg hcond).symm, fee, hfee, rfl⟩

theorem l1BatchDetailsFromStorage_spec (b : StorageL1BatchDetails) (ld : L1BatchDetails)
    (hb : l1BatchDetailsFromStorage b = some ld) :
    ld.status = (if b.number == 0 || b.execute_tx_hash.isSome then BlockStatus.Verified
      else BlockStatus.Sealed) := by
  simp only [l1BatchDetailsFromStorage] at hb
  repeat' split at hb
  all_goals try exact Option.noConfusion hb
  all_goals injection hb with hld
  all_goals subst hld
  all_goals rename_i hcond
  · exact (if_pos hcond).symm
  · exact (if_neg hcond).symm

theorem verified_cond_iff (n : Int) (o : Option α) :
    ((n == 0 || o.isSome) = true) ↔ (n = 0 ∨ o.isSome = true) := by
  simp [Bool.or_eq_true, beq_iff_eq]

/-- C9: `into_block_details` takes its operator-address fallback only from
the explicitly supplied `current_operator_address` argument: whenever the
conversion succeeds, the returned `operator_address` is the decoded
`fee_account_address` when that column is present, and the supplied argument
when it is absent. -/
theorem operator_address_source (self : StorageBlockDetails) (addr : Bytes) (bd : BlockDetails)
    (hconv : intoBlockDetails self addr = some bd) :
    (∀ v, self.fee_account_address = some v → bd.operator_address = v)
    ∧ (self.fee_account_address = none → bd.operator_address = addr) := by
  obtain ⟨-, fee, hfee, hop⟩ := intoBlockDetails_spec self addr bd hconv
  constructor
  · intro v hv
    rcases optionMapOrPanic_eq_some hfee with ⟨h0, _⟩ | ⟨a, w, ha, hfw, hr⟩
    · rw [hv] at h0
      cases h0
    · rw [hv] at ha
      injection ha with ha2
      subst ha2
      have hw := address_eq_of_fromSlice_eq_some hfw
      rw [hop, hr]
      simp [hw]
  · intro hnone
    rcases optionMapOrPanic_eq_some hfee with ⟨_, hrn⟩ | ⟨a, w, ha, _, _⟩
    · rw [hop, hrn]
      rfl
    · rw [hnone] at ha
      cases ha

/-- C9 witness: a concrete row with an absent fee account receives the
supplied fallback operator address. -/
theorem operator_address_source_witness :
    goodBlockDetailsConverted.operator_address = List.replicate 20 9 :=
  (operator_address_source goodBlockDetails (List.replicate 20 9)
    goodBlockDetailsConverted rfl).2 rfl

/-- C10: in both detail conversions, the status is `Verified` exactly when
the sequence number is 0 or the execute transaction hash is present, and
`Sealed` otherwise — so a genesis block/batch (number 0) is reported
`Verified` even without an execute-transaction confirmation. -/
theorem verified_status (self : StorageBlockDetails) (addr : Bytes) (bd : BlockDetails)
    (hconv : intoBlockDetails self addr = some bd)
    (b : StorageL1BatchDetails) (ld : L1BatchDetails)
    (hb : l1BatchDetailsFromStorage b = some ld) :
    (bd.status = BlockStatus.Verified ↔ (self.number = 0 ∨ self.execute_tx_hash.isSome = true))
    ∧ (bd.status = BlockStatus.Sealed ↔ ¬(self.number = 0 ∨ self.execute_tx_hash.isSome = true))
    ∧ (ld.status = BlockStatus.Verified ↔ (b.number = 0 ∨ b.execute_tx_hash.isSome = true))
    ∧ (ld.status = BlockStatus.Sealed ↔ ¬(b.number = 0 ∨ b.execute_tx_hash.isSome = true)) := by
  obtain ⟨hst, -⟩ := intoBlockDetails_spec self addr bd hconv
  have hst2 := l1BatchDetailsFromStorage_spec b ld hb
  refine ⟨?_, ?_, ?_, ?_⟩
  · rw [hst]
    by_cases hc : (self.number == 0 || self.execute_tx_hash.isSome) = true
    · rw [if_pos hc]
      exact iff_of_true rfl ((verified_cond_iff _ _).1 hc)
    · rw [if_neg hc]
      exact iff_of_false (by decide) fun hp => hc ((verified_cond_iff _ _).2 hp)
  · rw [hst]
    by_cases hc : (self.number == 0 || self.execute_tx_hash.isSome) = true
    · rw [if_pos hc]
      exact iff_of_false (by decide) fun hn => hn ((verified_cond_iff _ _).1 hc)
    · rw [if_neg hc]
      exact iff_of_true rfl fun hp => hc ((verified_cond_iff _ _).2 hp)
  · rw [hst2]
    by_cases hc : (b.number == 0 || b.execute_tx_hash.isSome) = true
    · rw [if_pos hc]
      exact iff_of_true rfl ((verified_cond_iff _ _).1 hc)
    · rw [if_neg hc]
      exact iff_of_false (by decide) fun hp => hc ((verified_cond_iff _ _).2 hp)
  · rw [hst2]
    by_cases hc : (b.number == 0 || b.execute_tx_hash.isSome) = true
    · rw [if_pos hc]
      exact iff_of_false (by decide) fun hn => hn ((verified_cond_iff _ _).1 hc)
    · rw [if_neg hc]
      exact iff_of_true rfl fun hp => hc ((verified_cond_iff _ _).2 hp)

/-- C10 witness: a concrete nonzero batch with a present execute transaction
hash is reported `Verified`. -/
theorem verified_status_witness :
    goodL1BatchDetailsConverted.status = BlockStatus.Verified :=
  (verified_status goodBlockDetails (List.replicate 20 9) goodBlockDetailsConverted rfl
    goodL1BatchDetails goodL1BatchDetailsConverted rfl).2.2.1.mpr (Or.inr rfl)

end ZkSync
